import Mathlib

/-!
Verification of the packageable-element model and the service-registration
flow of the legend-studio excerpt.

The sources embedded here are:
- `INTERNAL__UnknownPackageableElement` (class with `content`, `_elementHashCode`,
  `accept_PackageableElementVisitor`);
- `ServiceRegisterModal.registerService` (the async callback with its guard,
  try/catch/finally and external calls).

Collaborators that live outside the excerpt (`hashArray`,
`hashObjectWithoutSourceInformation`, `CORE_HASH_STRUCTURE`, the
`PackageableElement` base class, the `PackageableElementVisitor` interface,
the graph deserializer and `ActionState`) are modelled from the
specification, each marked `Modelled from the spec:` in its doc comment.
-/

set_option autoImplicit false

namespace LegendStudio

/-- A JSON-like structured value: the model of the TypeScript `PlainObject`
payloads carried by unknown packageable elements.  Numbers are modelled as
integers; none of the verified properties depends on numeric arithmetic. -/
inductive JValue where
  | jnull : JValue
  | jbool : Bool → JValue
  | jnum : Int → JValue
  | jstr : String → JValue
  | jarr : List JValue → JValue
  | jobj : List (String × JValue) → JValue
deriving Repr

/-- A `PlainObject` is a JSON object: a list of named fields. -/
abbrev PlainObject := List (String × JValue)

/-- Modelled from the spec: the key under which source-position/diagnostic
information is attached to a payload.  The spec leaves the exact boundary of
source information open; the verified hash properties are stated relative to
whatever this predicate removes. -/
def isSourceInformationKey (k : String) : Bool :=
  k == "sourceInformation"

mutual

/-- Modelled from the spec: recursively remove every source-information field
from a JSON value (`hashObjectWithoutSourceInformation` hashes the content
"with all source-position/diagnostic information stripped"). -/
def stripSourceInfoValue : JValue → JValue
  | .jnull => .jnull
  | .jbool b => .jbool b
  | .jnum n => .jnum n
  | .jstr s => .jstr s
  | .jarr vs => .jarr (stripSourceInfoList vs)
  | .jobj fs => .jobj (stripSourceInfoFields fs)

/-- Source-information stripping mapped over the elements of a JSON array. -/
def stripSourceInfoList : List JValue → List JValue
  | [] => []
  | v :: vs => stripSourceInfoValue v :: stripSourceInfoList vs

/-- Source-information stripping over the fields of a JSON object: fields whose
key is a source-information key are dropped, the rest are stripped recursively. -/
def stripSourceInfoFields : List (String × JValue) → List (String × JValue)
  | [] => []
  | (k, v) :: fs =>
    if isSourceInformationKey k then stripSourceInfoFields fs
    else (k, stripSourceInfoValue v) :: stripSourceInfoFields fs

end

mutual

/-- Canonical rendering of a JSON value, used as the structural digest of a
payload.  The model idealises the digest as collision-free. -/
def renderJValue : JValue → String
  | .jnull => "null"
  | .jbool b => if b then "true" else "false"
  | .jnum n => toString n
  | .jstr s => s
  | .jarr vs => "[" ++ renderJList vs ++ "]"
  | .jobj fs => "\x7b" ++ renderJFields fs ++ "\x7d"

/-- Canonical rendering of the elements of a JSON array. -/
def renderJList : List JValue → String
  | [] => ""
  | v :: vs => renderJValue v ++ "," ++ renderJList vs

/-- Canonical rendering of the fields of a JSON object. -/
def renderJFields : List (String × JValue) → String
  | [] => ""
  | (k, v) :: fs => k ++ ":" ++ renderJValue v ++ "," ++ renderJFields fs

end

/-- Modelled from the spec: `hashObjectWithoutSourceInformation` of
`Core_HashUtils` (not under src) — the structural hash of a payload computed
after all source-information fields have been removed, modelled as the
canonical rendering of the stripped payload. -/
def hashObjectWithoutSourceInformation (content : PlainObject) : String :=
  renderJFields (stripSourceInfoFields content)

/-- Injective encoding of a list of naturals into a natural, by iterated
pairing. -/
def encodeNatList : List Nat → Nat
  | [] => 0
  | n :: ns => Nat.pair n (encodeNatList ns) + 1

/-- Injective encoding of a string into a natural, through its character
codes. -/
def encodeString (s : String) : Nat :=
  encodeNatList (s.data.map Char.toNat)

/-- Modelled from the spec: `hashArray` of legend-shared (not under src) — a
content-addressed fingerprint combining a list of string components.  The spec
requires each component (in particular the path) to be hash-significant, so
the fingerprint is modelled as an injective encoding of the component list. -/
def hashArray (components : List String) : Nat :=
  encodeNatList (components.map encodeString)

/-- Modelled from the spec: the type-discriminator tag of `CORE_HASH_STRUCTURE`
for the unknown-packageable-element kind (`Core_HashUtils` is not under src). -/
def CORE_HASH_STRUCTURE.INTERNAL__UNKNOWN_PACKAGEABLE_ELEMENT : String :=
  "INTERNAL__UNKNOWN_PACKAGEABLE_ELEMENT"

/-- The `INTERNAL__UnknownPackageableElement` class: a packageable element
(with its inherited `path`) holding an uninterpreted `content` payload. -/
structure INTERNAL__UnknownPackageableElement where
  path : String
  content : PlainObject
deriving Repr

/-- The `_elementHashCode` getter of `INTERNAL__UnknownPackageableElement`,
transcribed from the source: the hash of the three-component array
`[CORE_HASH_STRUCTURE.INTERNAL__UNKNOWN_PACKAGEABLE_ELEMENT, this.path,
hashObjectWithoutSourceInformation(this.content)]`. -/
def _elementHashCode (e : INTERNAL__UnknownPackageableElement) : Nat :=
  hashArray
    [ CORE_HASH_STRUCTURE.INTERNAL__UNKNOWN_PACKAGEABLE_ELEMENT,
      e.path,
      hashObjectWithoutSourceInformation e.content ]

/-- Modelled from the spec: the `hashCode` derived attribute of the
`PackageableElement` base class (not under src), which exposes the variant
override `_elementHashCode`. -/
def hashCode (e : INTERNAL__UnknownPackageableElement) : Nat :=
  _elementHashCode e

/-- The `hashCode` getter as an explicit state-passing computation: it returns
the hash together with the element it leaves behind.  The source getter
performs no assignment, so the element comes back unchanged. -/
def hashCodeRun (e : INTERNAL__UnknownPackageableElement) :
    Nat × INTERNAL__UnknownPackageableElement :=
  (hashArray
    [ CORE_HASH_STRUCTURE.INTERNAL__UNKNOWN_PACKAGEABLE_ELEMENT,
      e.path,
      hashObjectWithoutSourceInformation e.content ], e)

/-! Injectivity of the fingerprint model -/

theorem encodeNatList_injective : Function.Injective encodeNatList := by
  intro l1 l2 h
  induction l1 generalizing l2 with
  | nil =>
    cases l2 with
    | nil => rfl
    | cons b bs => simp [encodeNatList] at h
  | cons a as ih =>
    cases l2 with
    | nil => simp [encodeNatList] at h
    | cons b bs =>
      simp only [encodeNatList, Nat.add_right_cancel_iff] at h
      obtain ⟨h1, h2⟩ := Nat.pair_eq_pair.mp h
      exact congrArg₂ List.cons h1 (ih h2)

theorem char_toNat_injective : Function.Injective Char.toNat := by
  intro a b h
  apply Char.eq_of_val_eq
  exact UInt32.toNat.inj h

theorem encodeString_injective : Function.Injective encodeString := by
  intro s t h
  have hdata : s.data.map Char.toNat = t.data.map Char.toNat :=
    encodeNatList_injective h
  have hchars : s.data = t.data :=
    List.map_injective_iff.mpr char_toNat_injective hdata
  cases s; cases t
  exact congrArg String.mk hchars

theorem hashArray_injective : Function.Injective hashArray := by
  intro l1 l2 h
  exact List.map_injective_iff.mpr encodeString_injective
    (encodeNatList_injective h)

/-! Claims about the hash code -/

/-- C1: the hash code of every `INTERNAL__UnknownPackageableElement` is the
hash of the array of exactly three components, in order: the unknown-element
type-discriminator tag, the path of the element, and the structural hash of its
content with all source information stripped. -/
theorem hashCode_is_hash_of_three_components
    (e : INTERNAL__UnknownPackageableElement) :
    hashCode e =
      hashArray
        [ CORE_HASH_STRUCTURE.INTERNAL__UNKNOWN_PACKAGEABLE_ELEMENT,
          e.path,
          renderJFields (stripSourceInfoFields e.content) ] := rfl

/-- C2: two unknown packageable elements with equal paths whose contents agree
once all source-information fields are stripped have identical hash codes;
source metadata is hash-transparent. -/
theorem hashCode_ignores_source_information
    (e1 e2 : INTERNAL__UnknownPackageableElement)
    (hpath : e1.path = e2.path)
    (hcontent : stripSourceInfoFields e1.content = stripSourceInfoFields e2.content) :
    hashCode e1 = hashCode e2 := by
  unfold hashCode _elementHashCode hashObjectWithoutSourceInformation
  rw [hpath, hcontent]

/-- Witness for C2: an element whose content carries a `sourceInformation`
field hashes identically to the same element without it. -/
theorem hashCode_ignores_source_information_witness :
    hashCode
        { path := "model::Foo",
          content := [("bar", JValue.jnum 1),
                      ("sourceInformation", JValue.jobj [("line", JValue.jnum 3)])] }
      = hashCode { path := "model::Foo", content := [("bar", JValue.jnum 1)] } :=
  hashCode_ignores_source_information
    { path := "model::Foo",
      content := [("bar", JValue.jnum 1),
                  ("sourceInformation", JValue.jobj [("line", JValue.jnum 3)])] }
    { path := "model::Foo", content := [("bar", JValue.jnum 1)] }
    rfl rfl

/-- C3: two unknown packageable elements with different paths but identical
content have different hash codes: the path is hash-significant. -/
theorem hashCode_path_significant
    (e1 e2 : INTERNAL__UnknownPackageableElement)
    (hpath : e1.path ≠ e2.path)
    (hcontent : e1.content = e2.content) :
    hashCode e1 ≠ hashCode e2 := by
  intro h
  apply hpath
  have hlists := hashArray_injective h
  simpa [hcontent] using congrArg (fun l => l.get? 1) hlists

/-- Witness for C3: the same content under the paths `model::A` and `model::B`
hashes differently. -/
theorem hashCode_path_significant_witness :
    hashCode { path := "model::A", content := [("bar", JValue.jnum 1)] }
      ≠ hashCode { path := "model::B", content := [("bar", JValue.jnum 1)] } :=
  hashCode_path_significant
    { path := "model::A", content := [("bar", JValue.jnum 1)] }
    { path := "model::B", content := [("bar", JValue.jnum 1)] }
    (by decide) rfl

/-- C7: running the hash-code getter twice with no intervening mutation yields
the same hash both times, and the getter leaves the element unchanged. -/
theorem hashCode_deterministic_and_pure
    (e : INTERNAL__UnknownPackageableElement) :
    (hashCodeRun e).1 = (hashCodeRun (hashCodeRun e).2).1 ∧
      (hashCodeRun (hashCodeRun e).2).2 = e := ⟨rfl, rfl⟩

/-! Visitor dispatch -/

/-- Modelled from the spec: the `PackageableElementVisitor` interface
(`PackageableElement.ts` is not under src).  A visitor implements one method
per known element variant plus one for the unknown-element fallback; the known
variants are outside the excerpt and appear here through a single uninterpreted
handler keyed by the variant kind. -/
structure PackageableElementVisitor (T : Type) where
  visit_INTERNAL__UnknownPackageableElement :
    INTERNAL__UnknownPackageableElement → T
  visitKnownVariant : String → T

/-- The identity of a visitor method, used to record which methods a dispatch
invokes. -/
inductive VisitorMethod where
  | visit_INTERNAL__UnknownPackageableElement : VisitorMethod
  | visitKnownVariant : String → VisitorMethod
deriving Repr, DecidableEq

/-- The `accept_PackageableElementVisitor` method of
`INTERNAL__UnknownPackageableElement`, transcribed from the source: it calls
`visitor.visit_INTERNAL__UnknownPackageableElement(this)`. -/
def accept_PackageableElementVisitor {T : Type}
    (e : INTERNAL__UnknownPackageableElement)
    (visitor : PackageableElementVisitor T) : T :=
  visitor.visit_INTERNAL__UnknownPackageableElement e

/-- Instrumentation of a visitor: every method returns the underlying result
together with a log of the one invocation it records. -/
def trackingVisitor {T : Type} (v : PackageableElementVisitor T) :
    PackageableElementVisitor (T × List VisitorMethod) where
  visit_INTERNAL__UnknownPackageableElement e :=
    (v.visit_INTERNAL__UnknownPackageableElement e,
      [VisitorMethod.visit_INTERNAL__UnknownPackageableElement])
  visitKnownVariant k :=
    (v.visitKnownVariant k, [VisitorMethod.visitKnownVariant k])

/-- C4: accepting any visitor on an unknown packageable element invokes
exactly one visitor method — the unknown-element method — and returns that
result of that method applied to the element, as the instrumented dispatch records. -/
theorem accept_dispatches_to_unknown_method
    {T : Type} (e : INTERNAL__UnknownPackageableElement)
    (v : PackageableElementVisitor T) :
    accept_PackageableElementVisitor e (trackingVisitor v) =
      (v.visit_INTERNAL__UnknownPackageableElement e,
        [VisitorMethod.visit_INTERNAL__UnknownPackageableElement]) := rfl

/-! Deserialization of unknown element kinds -/

/-- The result of deserializing one packageable-element payload: either a
typed element of a recognized kind (uninterpreted here, constructed outside the
excerpt) or the unknown-element fallback. -/
inductive DeserializedElement where
  | knownElement : String → PlainObject → DeserializedElement
  | unknownElement : INTERNAL__UnknownPackageableElement → DeserializedElement
deriving Repr

/-- Modelled from the spec: the kind discriminator of a payload, read from its
`_type` field. -/
def payloadKind (p : PlainObject) : Option String :=
  match p.lookup "_type" with
  | some (JValue.jstr s) => some s
  | _ => none

/-- Modelled from the spec: the graph deserializer (not under src).  It
matches the kind discriminator of the payload against the known kinds; when no
known variant matches, it constructs the unknown-element fallback with the raw
payload attached verbatim instead of failing the graph load. -/
def deserializePackageableElement (knownKinds : List String) (path : String)
    (p : PlainObject) : Except String DeserializedElement :=
  match payloadKind p with
  | some kind =>
    if knownKinds.contains kind then
      Except.ok (DeserializedElement.knownElement kind p)
    else
      Except.ok (DeserializedElement.unknownElement { path := path, content := p })
  | none =>
    Except.ok (DeserializedElement.unknownElement { path := path, content := p })

/-- Modelled from the spec: re-serialization of the unknown-element fallback
emits its stored raw content verbatim. -/
def serializeUnknownElement (e : INTERNAL__UnknownPackageableElement) :
    PlainObject :=
  e.content

/-- C5: a payload whose kind discriminator is not recognized deserializes
successfully to the unknown-element fallback, and re-serializing that fallback
returns a payload structurally equal to the original (round-trip law). -/
theorem unknown_kind_roundtrip (knownKinds : List String) (path : String)
    (p : PlainObject)
    (h : ∀ kind, payloadKind p = some kind → knownKinds.contains kind = false) :
    deserializePackageableElement knownKinds path p =
        Except.ok (DeserializedElement.unknownElement { path := path, content := p }) ∧
      serializeUnknownElement { path := path, content := p } = p := by
  refine ⟨?_, rfl⟩
  unfold deserializePackageableElement
  cases hk : payloadKind p with
  | none => rfl
  | some kind =>
    have hnot : kind ∉ knownKinds := by simpa using h kind hk
    simp [hnot]

/-- Witness for C5: a payload of the unrecognized kind `newKind` round-trips
through the deserializer against the known kinds `class` and `mapping`. -/
theorem unknown_kind_roundtrip_witness :
    deserializePackageableElement ["class", "mapping"] "model::Foo"
          [("_type", JValue.jstr "newKind"), ("bar", JValue.jnum 1)] =
        Except.ok (DeserializedElement.unknownElement
          { path := "model::Foo",
            content := [("_type", JValue.jstr "newKind"), ("bar", JValue.jnum 1)] }) ∧
      serializeUnknownElement
          { path := "model::Foo",
            content := [("_type", JValue.jstr "newKind"), ("bar", JValue.jnum 1)] } =
        [("_type", JValue.jstr "newKind"), ("bar", JValue.jnum 1)] :=
  unknown_kind_roundtrip ["class", "mapping"] "model::Foo"
    [("_type", JValue.jstr "newKind"), ("bar", JValue.jnum 1)]
    (by intro kind hk; simp [payloadKind] at hk; subst hk; decide)

/-- C6: no operation of the component fails on unrecognized content — the
deserializer never returns an error on any payload, an unrecognized kind is
substituted by the unknown-element fallback, and the hash and visitor-dispatch
operations on that fallback compute plain values. -/
theorem no_operation_throws_on_unknown_content (knownKinds : List String)
    (path : String) (p : PlainObject)
    (h : ∀ kind, payloadKind p = some kind → knownKinds.contains kind = false) :
    deserializePackageableElement knownKinds path p =
        Except.ok (DeserializedElement.unknownElement { path := path, content := p }) ∧
      (∀ (kinds2 : List String) (path2 : String) (p2 : PlainObject),
        (deserializePackageableElement kinds2 path2 p2).isOk = true) ∧
      hashCode { path := path, content := p } =
        _elementHashCode { path := path, content := p } ∧
      accept_PackageableElementVisitor { path := path, content := p }
          (trackingVisitor
            { visit_INTERNAL__UnknownPackageableElement := fun e => e.path,
              visitKnownVariant := fun k => k }) =
        (path, [VisitorMethod.visit_INTERNAL__UnknownPackageableElement]) := by
  refine ⟨?_, ?_, rfl, rfl⟩
  · unfold deserializePackageableElement
    cases hk : payloadKind p with
    | none => rfl
    | some kind =>
      have hnot : kind ∉ knownKinds := by simpa using h kind hk
      simp [hnot]
  · intro kinds2 path2 p2
    unfold deserializePackageableElement
    cases payloadKind p2 with
    | none => rfl
    | some kind =>
      dsimp only
      split <;> rfl

/-- Witness for C6: the no-throw properties at the concrete unrecognized
payload of kind `newKind`. -/
theorem no_operation_throws_on_unknown_content_witness :
    deserializePackageableElement ["class"] "model::Foo"
          [("_type", JValue.jstr "newKind")] =
        Except.ok (DeserializedElement.unknownElement
          { path := "model::Foo", content := [("_type", JValue.jstr "newKind")] }) ∧
      (∀ (kinds2 : List String) (path2 : String) (p2 : PlainObject),
        (deserializePackageableElement kinds2 path2 p2).isOk = true) ∧
      hashCode { path := "model::Foo", content := [("_type", JValue.jstr "newKind")] } =
        _elementHashCode
          { path := "model::Foo", content := [("_type", JValue.jstr "newKind")] } ∧
      accept_PackageableElementVisitor
          { path := "model::Foo", content := [("_type", JValue.jstr "newKind")] }
          (trackingVisitor
            { visit_INTERNAL__UnknownPackageableElement := fun e => e.path,
              visitKnownVariant := fun k => k }) =
        ("model::Foo", [VisitorMethod.visit_INTERNAL__UnknownPackageableElement]) :=
  no_operation_throws_on_unknown_content ["class"] "model::Foo"
    [("_type", JValue.jstr "newKind")]
    (by intro kind hk; simp [payloadKind] at hk; subst hk; decide)

/-! The service-registration flow of `ServiceRegisterModal`

`registerService` is an async callback; it is embedded as a deterministic
function from the component state and an oracle of external-call outcomes to a
final registration state, a trace of the external calls made, and an outcome
(normal return, or an error left uncaught by the callback itself).  Await
points are sequential, matching the single-invocation execution of the
callback. -/

/-- Modelled from the spec: the observable part of the `ActionState` of
legend-shared (not under src) — whether the action is in progress, and its
message.  `reset` returns the state to not-in-progress; `setMessage` stores
the message. -/
structure RegistrationState where
  isInProgress : Bool
  message : Option String
deriving Repr, DecidableEq

/-- The part of `ProjectData` that `registerService` reads. -/
structure Project where
  groupId : String
  artifactId : String
deriving Repr, DecidableEq

/-- The part of the query info that `registerService` reads. -/
structure QueryInfo where
  content : String
  mapping : String
  runtime : String
deriving Repr, DecidableEq

/-- One entry of `TEMPORARY__serviceRegistrationConfig`: an execution-server
environment with its management URL and supported modes. -/
structure ServiceRegistrationEnvInfo where
  env : String
  managementUrl : Option String
  modes : List String
deriving Repr, DecidableEq

/-- The part of the service-registration result that `registerService`
reads. -/
structure ServiceRegistrationResult where
  pattern : String
  serviceInstanceId : String
deriving Repr, DecidableEq

/-- The component state read by `registerService` at the moment of the
invocation. -/
structure ComponentState where
  registrationState : RegistrationState
  servicePath : String
  servicePattern : String
  owners : List String
  isServicePathValid : Bool
  isServiceUrlPatternValid : Bool
  serviceEnv : Option String
  activateService : Bool
  serverRegistrationOptions : List ServiceRegistrationEnvInfo
deriving Repr, DecidableEq

deriving instance DecidableEq for Except

/-- The outcomes of the awaited external calls, fixed up front: each call
either returns a value or throws. -/
structure Oracles where
  getProjectResult : Except String Project
  getQueryInfoResult : Except String QueryInfo
  createServiceElementResult : Except String Unit
  registerServiceResult : Except String ServiceRegistrationResult
  activateServiceResult : Except String Unit
deriving Repr, DecidableEq

/-- The external calls `registerService` can make, in invocation order. -/
inductive ExtCall where
  | getProject : ExtCall
  | getQueryInfo : ExtCall
  | createServiceElement :
      String → String → List String → String → String → String → ExtCall
  | registerService : String → String → String → String → ExtCall
  | activateService : String → String → ExtCall
  | setActionAlertInfo : String → ExtCall
  | logError : String → ExtCall
  | notifyError : String → ExtCall
deriving Repr, DecidableEq

/-- The outcome of one invocation of the callback: a normal return, or an
error that escapes the callback (to be handled by `guardUnhandledError`). -/
inductive RunOutcome where
  | normal : RunOutcome
  | uncaught : String → RunOutcome
deriving Repr, DecidableEq

/-- The observable result of one invocation: the final registration state, the
trace of external calls, and the outcome. -/
structure RunResult where
  registrationState : RegistrationState
  trace : List ExtCall
  outcome : RunOutcome
deriving Repr, DecidableEq

/-- Modelled from the spec: the `LATEST_PROJECT_REVISION` constant of
legend-application-studio (not under src), used verbatim as the version
input. -/
def LATEST_PROJECT_REVISION : String :=
  "LATEST_PROJECT_REVISION"

/-- JS truthiness of `serviceEnv`: `selectedEnvOption` is null exactly when
`serviceEnv` is undefined or the empty string. -/
def optionStringTruthy : Option String → Bool
  | none => false
  | some s => s != ""

/-- The early-return guard of `registerService`, transcribed from the source:
registration already in progress, falsy path or pattern, invalid path or
pattern, or no selected environment option. -/
def registrationGuardBlocked (cs : ComponentState) : Bool :=
  cs.registrationState.isInProgress || cs.servicePath == "" ||
    cs.servicePattern == "" || !cs.isServicePathValid ||
    !cs.isServiceUrlPatternValid || !(optionStringTruthy cs.serviceEnv)

/-- The server URL resolution of the try block:
`serverRegistrationOptions.find((option) => option.env ===
selectedEnvOption.value)?.managementUrl`, which `guaranteeNonNullable` then
requires to be present. -/
def resolvedServerUrl (cs : ComponentState) : Option String :=
  (cs.serverRegistrationOptions.find? (fun opt => opt.env == cs.serviceEnv.getD "")).bind
    (fun opt => opt.managementUrl)

/-- The try block of `registerService`, transcribed from the source: mark the
action in progress, resolve the server URL (`guaranteeNonNullable` throws when
it is absent), set the message, create the service element, register it, if
the toggle is on activate it, assert the returned pattern non-empty and raise
the success alert.  Returns the registration state and trace accumulated
inside the block together with the outcome of the block itself. -/
def registerServiceTryBody (cs : ComponentState) (o : Oracles) (project : Project)
    (queryInfo : QueryInfo) :
    RegistrationState × List ExtCall × Except String Unit :=
  let st1 : RegistrationState := { cs.registrationState with isInProgress := true }
  match resolvedServerUrl cs with
  | none => (st1, [], Except.error "managementUrl is missing")
  | some serverUrl =>
    let st2 : RegistrationState := { st1 with message := some "Registering service..." }
    let t1 := [ExtCall.createServiceElement cs.servicePath cs.servicePattern cs.owners
      queryInfo.content queryInfo.mapping queryInfo.runtime]
    match o.createServiceElementResult with
    | Except.error msg => (st2, t1, Except.error msg)
    | Except.ok _ =>
      let t2 := t1 ++ [ExtCall.registerService project.groupId project.artifactId
        LATEST_PROJECT_REVISION serverUrl]
      match o.registerServiceResult with
      | Except.error msg => (st2, t2, Except.error msg)
      | Except.ok result =>
        if cs.activateService then
          let st3 : RegistrationState := { st2 with message := some "Activating service..." }
          let t3 := t2 ++ [ExtCall.activateService serverUrl result.serviceInstanceId]
          match o.activateServiceResult with
          | Except.error msg => (st3, t3, Except.error msg)
          | Except.ok _ =>
            if result.pattern == "" then
              (st3, t3, Except.error "Service registration pattern is missing or empty")
            else
              (st3, t3 ++ [ExtCall.setActionAlertInfo
                ("Service with pattern " ++ result.pattern ++ " registered and activated ")],
                Except.ok ())
        else
          if result.pattern == "" then
            (st2, t2, Except.error "Service registration pattern is missing or empty")
          else
            (st2, t2 ++ [ExtCall.setActionAlertInfo
              ("Service with pattern " ++ result.pattern ++ " registered ")],
              Except.ok ())

/-- One invocation of the `registerService` callback, transcribed from the
source: fetch the project and the query info (errors there escape the
callback), evaluate the guard, then run the try block; a try-block error is
caught (logged and notified) and the finally block resets the registration
state and clears the message. -/
def registerServiceRun (cs : ComponentState) (o : Oracles) : RunResult :=
  match o.getProjectResult with
  | Except.error msg =>
    ⟨cs.registrationState, [ExtCall.getProject], RunOutcome.uncaught msg⟩
  | Except.ok project =>
    match o.getQueryInfoResult with
    | Except.error msg =>
      ⟨cs.registrationState, [ExtCall.getProject, ExtCall.getQueryInfo],
        RunOutcome.uncaught msg⟩
    | Except.ok queryInfo =>
      if registrationGuardBlocked cs then
        ⟨cs.registrationState, [ExtCall.getProject, ExtCall.getQueryInfo],
          RunOutcome.normal⟩
      else
        let body := registerServiceTryBody cs o project queryInfo
        let caught : RegistrationState × List ExtCall :=
          match body.2.2 with
          | Except.ok _ => (body.1, body.2.1)
          | Except.error msg =>
            (body.1, body.2.1 ++ [ExtCall.logError msg, ExtCall.notifyError msg])
        ⟨{ caught.1 with isInProgress := false, message := none },
          ExtCall.getProject :: ExtCall.getQueryInfo :: caught.2,
          RunOutcome.normal⟩

/-- Whether an external call is the service-element creation, the service
registration or the service activation. -/
def isServiceActionCall : ExtCall → Bool
  | ExtCall.createServiceElement _ _ _ _ _ _ => true
  | ExtCall.registerService _ _ _ _ => true
  | ExtCall.activateService _ _ => true
  | _ => false

/-- Whether an external call is the service activation. -/
def isActivateCall : ExtCall → Bool
  | ExtCall.activateService _ _ => true
  | _ => false

/-- C8: an invocation of `registerService` that starts from an idle
registration state (not in progress, no message) always ends with the
registration state not in progress and the message cleared, whether the try
block completes, an error is caught, the guard returns early, or a pre-guard
fetch fails. -/
theorem registerService_always_ends_reset (cs : ComponentState) (o : Oracles)
    (hprog : cs.registrationState.isInProgress = false)
    (hmsg : cs.registrationState.message = none) :
    (registerServiceRun cs o).registrationState.isInProgress = false ∧
      (registerServiceRun cs o).registrationState.message = none := by
  unfold registerServiceRun
  cases o.getProjectResult with
  | error msg => exact ⟨hprog, hmsg⟩
  | ok project =>
    cases o.getQueryInfoResult with
    | error msg => exact ⟨hprog, hmsg⟩
    | ok queryInfo =>
      by_cases hg : registrationGuardBlocked cs
      · simp [hg, hprog, hmsg]
      · simp [hg]

/-- Witness for C8: a concrete invocation from the idle state, with every
external call succeeding, ends reset with the message cleared. -/
theorem registerService_always_ends_reset_witness :
    (registerServiceRun
        { registrationState := { isInProgress := false, message := none },
          servicePath := "model::QueryService",
          servicePattern := "/svc",
          owners := [],
          isServicePathValid := true,
          isServiceUrlPatternValid := true,
          serviceEnv := some "uat",
          activateService := true,
          serverRegistrationOptions :=
            [{ env := "uat", managementUrl := some "http://mgmt",
               modes := ["SEMI_INTERACTIVE"] }] }
        { getProjectResult := Except.ok { groupId := "g", artifactId := "a" },
          getQueryInfoResult :=
            Except.ok { content := "c", mapping := "m", runtime := "r" },
          createServiceElementResult := Except.ok (),
          registerServiceResult :=
            Except.ok { pattern := "/svc", serviceInstanceId := "id1" },
          activateServiceResult := Except.ok () }).registrationState.isInProgress
        = false ∧
      (registerServiceRun
        { registrationState := { isInProgress := false, message := none },
          servicePath := "model::QueryService",
          servicePattern := "/svc",
          owners := [],
          isServicePathValid := true,
          isServiceUrlPatternValid := true,
          serviceEnv := some "uat",
          activateService := true,
          serverRegistrationOptions :=
            [{ env := "uat", managementUrl := some "http://mgmt",
               modes := ["SEMI_INTERACTIVE"] }] }
        { getProjectResult := Except.ok { groupId := "g", artifactId := "a" },
          getQueryInfoResult :=
            Except.ok { content := "c", mapping := "m", runtime := "r" },
          createServiceElementResult := Except.ok (),
          registerServiceResult :=
            Except.ok { pattern := "/svc", serviceInstanceId := "id1" },
          activateServiceResult := Except.ok () }).registrationState.message
        = none :=
  registerService_always_ends_reset _ _ rfl rfl

/-- C9: when both pre-guard fetches succeed and the guard condition holds
(registration in progress, empty path or pattern, an invalid flag, or no
selected environment), the invocation returns normally with only the two
fetches performed: no service element is created, no registration and no
activation happens, and the registration state is untouched. -/
theorem registerService_guard_early_return (cs : ComponentState) (o : Oracles)
    (project : Project) (queryInfo : QueryInfo)
    (hp : o.getProjectResult = Except.ok project)
    (hq : o.getQueryInfoResult = Except.ok queryInfo)
    (hguard : cs.registrationState.isInProgress = true ∨ cs.servicePath = "" ∨
      cs.servicePattern = "" ∨ cs.isServicePathValid = false ∨
      cs.isServiceUrlPatternValid = false ∨ cs.serviceEnv = none) :
    registerServiceRun cs o =
        ⟨cs.registrationState, [ExtCall.getProject, ExtCall.getQueryInfo],
          RunOutcome.normal⟩ ∧
      ((registerServiceRun cs o).trace.all fun c => !isServiceActionCall c) = true := by
  have hg : registrationGuardBlocked cs = true := by
    unfold registrationGuardBlocked
    rcases hguard with h | h | h | h | h | h <;> simp [h, optionStringTruthy]
  have h1 : registerServiceRun cs o =
      ⟨cs.registrationState, [ExtCall.getProject, ExtCall.getQueryInfo],
        RunOutcome.normal⟩ := by
    unfold registerServiceRun
    rw [hp, hq]
    simp [hg]
  refine ⟨h1, ?_⟩
  rw [h1]
  rfl

/-- Witness for C9: with a concrete state whose service path is empty, the
invocation performs only the two fetches and leaves the registration state
untouched. -/
theorem registerService_guard_early_return_witness :
    registerServiceRun
        { registrationState := { isInProgress := false, message := none },
          servicePath := "",
          servicePattern := "/svc",
          owners := [],
          isServicePathValid := true,
          isServiceUrlPatternValid := true,
          serviceEnv := some "uat",
          activateService := false,
          serverRegistrationOptions := [] }
        { getProjectResult := Except.ok { groupId := "g", artifactId := "a" },
          getQueryInfoResult :=
            Except.ok { content := "c", mapping := "m", runtime := "r" },
          createServiceElementResult := Except.ok (),
          registerServiceResult :=
            Except.ok { pattern := "/svc", serviceInstanceId := "id1" },
          activateServiceResult := Except.ok () } =
        ⟨{ isInProgress := false, message := none },
          [ExtCall.getProject, ExtCall.getQueryInfo], RunOutcome.normal⟩ ∧
      ((registerServiceRun
        { registrationState := { isInProgress := false, message := none },
          servicePath := "",
          servicePattern := "/svc",
          owners := [],
          isServicePathValid := true,
          isServiceUrlPatternValid := true,
          serviceEnv := some "uat",
          activateService := false,
          serverRegistrationOptions := [] }
        { getProjectResult := Except.ok { groupId := "g", artifactId := "a" },
          getQueryInfoResult :=
            Except.ok { content := "c", mapping := "m", runtime := "r" },
          createServiceElementResult := Except.ok (),
          registerServiceResult :=
            Except.ok { pattern := "/svc", serviceInstanceId := "id1" },
          activateServiceResult := Except.ok () }).trace.all
        fun c => !isServiceActionCall c) = true :=
  registerService_guard_early_return _ _
    { groupId := "g", artifactId := "a" }
    { content := "c", mapping := "m", runtime := "r" }
    rfl rfl (Or.inr (Or.inl rfl))

/-- C10: the graph manager activation is invoked exactly when the
activate-service toggle is on and the registration call happened and
succeeded; in that case it is invoked exactly once, with the selected
environment resolved management URL and the instance id of the registration
result. -/
theorem activateService_iff_toggle_and_success (cs : ComponentState) (o : Oracles) :
    ((∃ url id, ExtCall.activateService url id ∈ (registerServiceRun cs o).trace) ↔
      cs.activateService = true ∧
        (∃ g a v u, ExtCall.registerService g a v u ∈ (registerServiceRun cs o).trace) ∧
        ∃ result, o.registerServiceResult = Except.ok result) ∧
    ∀ url id, ExtCall.activateService url id ∈ (registerServiceRun cs o).trace →
      ((registerServiceRun cs o).trace.filter isActivateCall).length = 1 ∧
      ∃ result, o.registerServiceResult = Except.ok result ∧
        id = result.serviceInstanceId ∧ resolvedServerUrl cs = some url := by
  unfold registerServiceRun
  cases hp : o.getProjectResult with
  | error msg => simp
  | ok project =>
  cases hq : o.getQueryInfoResult with
  | error msg => simp
  | ok queryInfo =>
  by_cases hg : registrationGuardBlocked cs
  · simp [hg]
  · simp only [hg, Bool.false_eq_true, if_false, Bool.not_eq_true]
    unfold registerServiceTryBody
    cases hu : resolvedServerUrl cs with
    | none => simp
    | some serverUrl =>
    cases hc : o.createServiceElementResult with
    | error msg => simp
    | ok _ =>
    cases hr : o.registerServiceResult with
    | error msg => simp [hr]
    | ok result =>
    by_cases ha : cs.activateService
    · cases hact : o.activateServiceResult with
      | error msg => simp [ha, isActivateCall]
      | ok _ =>
        by_cases hpat : result.pattern == ""
        · simp [ha, hpat, isActivateCall]
        · simp [ha, hpat, isActivateCall]
    · by_cases hpat : result.pattern == ""
      · simp [ha, hpat]
      · simp [ha, hpat]

end LegendStudio
